import Mathlib

/-!
Verification of the error-reporting subsystem of the clap command-line
argument parser (src/error/mod.rs), shallowly embedded in Lean 4.

Pure data and functions are translated directly from the Rust source.
Collaborator types that live outside the excerpt (the Colorizer, the
App/builder handle, the ContextKind/ContextValue and ErrorKind enums'
own files, the process-exit seam) are modelled from the specification,
each marked by a doc comment starting with the words Modelled from the
spec.
-/

set_option autoImplicit false

namespace Clap

/-- Modelled from the spec: src/util/color.rs is not in the excerpt.  A
resolved three-state color policy (always / auto / never); the auto state
is resolved by an external collaborator before reaching this subsystem. -/
inductive ColorChoice where
  | Always
  | Auto
  | Never
deriving DecidableEq

/-- Modelled from the spec: the four span styles the Colorizer accepts
(none / good / warning / error). -/
inductive Style where
  | None
  | Good
  | Warning
  | Error
deriving DecidableEq

/-- Modelled from the spec: src/output/fmt.rs is not in the excerpt.  The
Colorizer is a styled-text accumulator: an ordered buffer of (style, text)
chunks plus the stream kind (stdout vs stderr) and the resolved color
policy fixed at construction.  Styling is visual-only metadata and never
affects the unstyled string form. -/
structure Colorizer where
  use_stderr : Bool
  color_when : ColorChoice
  chunks : List (Style × String)
deriving DecidableEq

/-- Modelled from the spec: Colorizer construction with an empty buffer. -/
def Colorizer.new (use_stderr : Bool) (color_when : ColorChoice) : Colorizer :=
  ⟨use_stderr, color_when, []⟩

/-- Modelled from the spec: append a styled chunk at the end of the buffer;
always succeeds. -/
def Colorizer.append (c : Colorizer) (style : Style) (s : String) : Colorizer :=
  { c with chunks := c.chunks ++ [(style, s)] }

/-- Modelled from the spec: append an unstyled chunk. -/
def Colorizer.none (c : Colorizer) (s : String) : Colorizer :=
  c.append Style.None s

/-- Modelled from the spec: append a good-styled chunk. -/
def Colorizer.good (c : Colorizer) (s : String) : Colorizer :=
  c.append Style.Good s

/-- Modelled from the spec: append a warning-styled chunk. -/
def Colorizer.warning (c : Colorizer) (s : String) : Colorizer :=
  c.append Style.Warning s

/-- Modelled from the spec: append an error-styled chunk. -/
def Colorizer.error (c : Colorizer) (s : String) : Colorizer :=
  c.append Style.Error s

/-- Modelled from the spec: the unstyled string form of the buffer, used
for the Display / source error-trait contract; styling never appears in
it. -/
def Colorizer.to_string (c : Colorizer) : String :=
  String.join (c.chunks.map Prod.snd)

/-- Modelled from the spec: src/error/context.rs is not in the excerpt.
Closed enumeration of semantic context slots; the variants used by
src/error/mod.rs and named by the spec. -/
inductive ContextKind where
  | InvalidArg
  | ValidArg
  | ValidValue
  | Usage
deriving DecidableEq

/-- Modelled from the spec: src/error/context.rs is not in the excerpt.
Tagged union over absent / single string / ordered string list / ordered
string-pair list. -/
inductive ContextValue where
  | None
  | Value (v : String)
  | Values (vs : List String)
  | Pairs (ps : List (String × String))
deriving DecidableEq

/-- The closed enumeration of failure / early-exit categories, declared in
src/error/kind.rs; the variant list is exactly the exhaustive match in
Error::formatted (src/error/mod.rs lines 727-826). -/
inductive ErrorKind where
  | InvalidValue
  | UnknownArgument
  | InvalidSubcommand
  | UnrecognizedSubcommand
  | EmptyValue
  | NoEquals
  | ValueValidation
  | TooManyValues
  | TooFewValues
  | TooManyOccurrences
  | WrongNumberOfValues
  | ArgumentConflict
  | MissingRequiredArgument
  | MissingSubcommand
  | UnexpectedMultipleUsage
  | InvalidUtf8
  | DisplayHelp
  | DisplayHelpOnMissingArgumentOrSubcommand
  | DisplayVersion
  | ArgumentNotFound
  | Io
  | Format
deriving DecidableEq

/-- Modelled from the spec: the body of ErrorKind::as_str lives in
src/error/kind.rs, not in the excerpt.  The spec (section 3) says each
kind optionally owns a static default summary sentence used when no
custom renderer applies; the early-exit kinds and the wrapped external
kinds (whose rendering falls back to the underlying cause) carry none. -/
def ErrorKind.as_str : ErrorKind → Option String
  | ErrorKind.InvalidValue => some "One of the values isn't valid for an argument"
  | ErrorKind.UnknownArgument =>
      some "Found an argument which wasn't expected or isn't valid in this context"
  | ErrorKind.InvalidSubcommand => some "A subcommand wasn't recognized"
  | ErrorKind.UnrecognizedSubcommand => some "A subcommand wasn't recognized"
  | ErrorKind.EmptyValue => some "An argument requires a value but none was supplied"
  | ErrorKind.NoEquals => some "Equal is needed when assigning values to one of the arguments"
  | ErrorKind.ValueValidation => some "Invalid value for one of the arguments"
  | ErrorKind.TooManyValues => some "An argument received an unexpected value"
  | ErrorKind.TooFewValues => some "An argument requires more values"
  | ErrorKind.TooManyOccurrences => some "An argument was provided more times than allowed"
  | ErrorKind.WrongNumberOfValues => some "An argument received too many or too few values"
  | ErrorKind.ArgumentConflict =>
      some "An argument cannot be used with one or more of the other specified arguments"
  | ErrorKind.MissingRequiredArgument => some "One or more required arguments were not provided"
  | ErrorKind.MissingSubcommand => some "A subcommand is required but one was not provided"
  | ErrorKind.UnexpectedMultipleUsage =>
      some "An argument was provided more than once but cannot be used multiple times"
  | ErrorKind.InvalidUtf8 => some "Invalid UTF-8 was detected in one or more arguments"
  | ErrorKind.DisplayHelp => Option.none
  | ErrorKind.DisplayHelpOnMissingArgumentOrSubcommand => Option.none
  | ErrorKind.DisplayVersion => Option.none
  | ErrorKind.ArgumentNotFound => some "An argument wasn't found"
  | ErrorKind.Io => Option.none
  | ErrorKind.Format => Option.none

/-- Modelled from the spec: the owning command handle (App) is an external
collaborator; the error subsystem reads only its resolved color policy and
the settings consulted by with_app and get_help_flag (WaitOnError,
DisableHelpFlag, subcommand presence, DisableHelpSubcommand). -/
structure App where
  color : ColorChoice
  wait_on_error : Bool
  disable_help_flag : Bool
  has_subcommands : Bool
  disable_help_subcommand : Bool
deriving DecidableEq

/-- Modelled from the spec: App::get_color returns the resolved color
policy. -/
def App.get_color (app : App) : ColorChoice :=
  app.color

/-- Embeds get_help_flag (src/error/mod.rs lines 891-899). -/
def get_help_flag (app : App) : Option String :=
  if !app.disable_help_flag then some "--help"
  else if app.has_subcommands && !app.disable_help_subcommand then some "help"
  else Option.none

/-- Embeds start_error (src/error/mod.rs lines 881-884). -/
def start_error (c : Colorizer) : Colorizer :=
  (c.error "error:").none " "

/-- Embeds put_usage (src/error/mod.rs lines 886-889). -/
def put_usage (c : Colorizer) (usage : String) : Colorizer :=
  (c.none "\n\n").none usage

/-- Embeds try_help (src/error/mod.rs lines 901-909). -/
def try_help (c : Colorizer) (help : Option String) : Colorizer :=
  match help with
  | some help => (((c.none "\n\nFor more information try ").good help).none "\n")
  | Option.none => c.none "\n"

/-- Models the escaping Rust's Debug formatting applies to one character
of a string (char::escape_debug), for the character classes reachable
here: quote, backslash and the common control characters get a backslash
escape, other control characters a \u escape, and everything else passes
through. -/
def rustEscapeChar (ch : Char) : String :=
  if ch = '"' then "\\\""
  else if ch = '\\' then "\\\\"
  else if ch = '\n' then "\\n"
  else if ch = '\r' then "\\r"
  else if ch = '\t' then "\\t"
  else if ch.val < 0x20 then
    "\\u\x7b" ++ String.mk (Nat.toDigits 16 ch.toNat) ++ "\x7d"
  else String.singleton ch

/-- Models Rust's format with the Debug specifier applied to a string
slice: the text wrapped in double quotes with each character escaped by
char::escape_debug. -/
def rustDebug (s : String) : String :=
  "\"" ++ String.join (s.data.map rustEscapeChar) ++ "\""

/-- Models str::contains(char::is_whitespace) for the whitespace
characters reachable here. -/
def containsWhitespace (s : String) : Bool :=
  s.data.any Char.isWhitespace

/-- Embeds escape (src/error/mod.rs lines 911-918). -/
def escape (s : String) : String :=
  if containsWhitespace s then rustDebug s else s

/-- Embeds the possible-values rendering step of Error::invalid_value
(src/error/mod.rs lines 349-356): the split_last loop writing the
good-styled values separated by commas. -/
def append_good_vals (c : Colorizer) (good_vals : List String) : Colorizer :=
  match good_vals.getLast? with
  | some last =>
      let c := good_vals.dropLast.foldl (fun (c : Colorizer) v => (c.good v).none ", ") c
      c.good last
  | Option.none => c

/-- Embeds the Message enum (src/error/mod.rs lines 920-924): raw text
awaiting enrichment, or a finished Colorizer buffer. -/
inductive Message where
  | Raw (s : String)
  | Formatted (c : Colorizer)
deriving DecidableEq

/-- Embeds Message::format (src/error/mod.rs lines 927-942); the usage
string is computed by the external App::render_usage and passed in. -/
def Message.format (m : Message) (app : App) (usage : String) : Message :=
  match m with
  | Message.Raw s =>
      let c := Colorizer.new true app.get_color
      let c := start_error c
      let c := c.none s
      let c := put_usage c usage
      let c := try_help c (get_help_flag app)
      Message.Formatted c
  | Message.Formatted c => Message.Formatted c

/-- Embeds Message::formatted (src/error/mod.rs lines 944-954); the Cow is
dropped in the embedding. -/
def Message.formatted (m : Message) : Colorizer :=
  match m with
  | Message.Raw s =>
      let c := Colorizer.new true ColorChoice.Never
      let c := start_error c
      let c := c.none s
      c
  | Message.Formatted c => c

/-- Models a boxed dynamic underlying cause (Box of dyn error::Error plus
Send and Sync): the only capability the subsystem uses is its display
text. -/
structure ErrSource where
  display : String
deriving DecidableEq

/-- Models an io::Error by the only capability used here, its display
text. -/
structure IoError where
  display : String
deriving DecidableEq

/-- Embeds the non-debug Backtrace (src/error/mod.rs lines 988-997): a
unit struct whose constructor returns None. -/
structure Backtrace where
deriving DecidableEq

/-- Embeds Backtrace::new in the non-debug build: always None. -/
def Backtrace.new : Option Backtrace :=
  Option.none

/-- Embeds ErrorInner (src/error/mod.rs lines 49-59). -/
structure ErrorInner where
  kind : ErrorKind
  context : List (ContextKind × ContextValue)
  message : Option Message
  source : Option ErrSource
  help_flag : Option String
  color_when : ColorChoice
  wait_on_exit : Bool
  backtrace : Option Backtrace
deriving DecidableEq

/-- Embeds the Error struct (src/error/mod.rs lines 40-47): the boxed
inner block, the public kind copy, and the legacy info list. -/
structure Error where
  inner : ErrorInner
  kind : ErrorKind
  info : List String
deriving DecidableEq

/-- Embeds Error::new (src/error/mod.rs lines 156-171). -/
def Error.new (kind : ErrorKind) : Error :=
  { inner :=
      { kind := kind
        context := []
        message := Option.none
        source := Option.none
        help_flag := Option.none
        color_when := ColorChoice.Never
        wait_on_exit := false
        backtrace := Backtrace.new }
    kind := kind
    info := [] }

/-- Embeds the Error::kind accessor (src/error/mod.rs lines 86-88); named
kind_method because the struct field already uses the name kind. -/
def Error.kind_method (e : Error) : ErrorKind :=
  e.inner.kind

/-- Embeds Error::context (src/error/mod.rs lines 91-93): the iterator is
modelled as the context list in insertion order. -/
def Error.context (e : Error) : List (ContextKind × ContextValue) :=
  e.inner.context

/-- Embeds Error::use_stderr (src/error/mod.rs lines 97-102). -/
def Error.use_stderr (e : Error) : Bool :=
  !(match e.kind_method with
    | ErrorKind.DisplayHelp | ErrorKind.DisplayVersion => true
    | _ => false)

/-- Embeds Error::set_message (src/error/mod.rs lines 187-190). -/
def Error.set_message (e : Error) (message : Message) : Error :=
  { e with inner := { e.inner with message := some message } }

/-- Embeds Error::set_info (src/error/mod.rs lines 192-195). -/
def Error.set_info (e : Error) (info : List String) : Error :=
  { e with info := info }

/-- Embeds Error::set_source (src/error/mod.rs lines 197-200). -/
def Error.set_source (e : Error) (source : ErrSource) : Error :=
  { e with inner := { e.inner with source := some source } }

/-- Embeds Error::set_color (src/error/mod.rs lines 202-205). -/
def Error.set_color (e : Error) (color_when : ColorChoice) : Error :=
  { e with inner := { e.inner with color_when := color_when } }

/-- Embeds Error::set_help_flag (src/error/mod.rs lines 207-210). -/
def Error.set_help_flag (e : Error) (help_flag : Option String) : Error :=
  { e with inner := { e.inner with help_flag := help_flag } }

/-- Embeds Error::set_wait_on_exit (src/error/mod.rs lines 212-215). -/
def Error.set_wait_on_exit (e : Error) (yes : Bool) : Error :=
  { e with inner := { e.inner with wait_on_exit := yes } }

/-- Embeds Error::insert_context_unchecked (src/error/mod.rs lines
218-225): a plain push, no check for an existing entry of the kind. -/
def Error.insert_context_unchecked
    (e : Error) (kind : ContextKind) (value : ContextValue) : Error :=
  { e with inner := { e.inner with context := e.inner.context ++ [(kind, value)] } }

/-- Embeds Error::extend_context_unchecked (src/error/mod.rs lines
228-234); the const-generic array becomes a list. -/
def Error.extend_context_unchecked
    (e : Error) (context : List (ContextKind × ContextValue)) : Error :=
  { e with inner := { e.inner with context := e.inner.context ++ context } }

/-- Embeds Error::get_context (src/error/mod.rs lines 236-241): the first
entry whose kind matches. -/
def Error.get_context (e : Error) (kind : ContextKind) : Option ContextValue :=
  e.inner.context.findSome? (fun p => if p.1 = kind then some p.2 else Option.none)

/-- Embeds Error::with_app (src/error/mod.rs lines 181-185). -/
def Error.with_app (e : Error) (app : App) : Error :=
  ((e.set_wait_on_exit app.wait_on_error).set_color app.get_color).set_help_flag
    (get_help_flag app)

/-- Embeds Error::for_app (src/error/mod.rs lines 173-179). -/
def Error.for_app (kind : ErrorKind) (app : App) (colorizer : Colorizer)
    (info : List String) : Error :=
  (((Error.new kind).set_message (Message.Formatted colorizer)).with_app app).set_info info

/-- Embeds Error::raw (src/error/mod.rs lines 70-72): the display text of
the message argument is stored as a Raw message. -/
def Error.raw (kind : ErrorKind) (message : String) : Error :=
  (Error.new kind).set_message (Message.Raw message)

/-- Embeds Error::format (src/error/mod.rs lines 76-83); app._build() is
an external side effect and render_usage is external, so its result is
passed in as the usage string. -/
def Error.format (e : Error) (app : App) (usage : String) : Error :=
  let e :=
    match e.inner.message with
    | some message => e.set_message (message.format app usage)
    | Option.none => e
  e.with_app app

/-- Embeds impl From of io::Error for Error (src/error/mod.rs lines
849-853): Error::raw with kind Io and the failure's display text. -/
def Error.from_io_error (e : IoError) : Error :=
  Error.raw ErrorKind.Io e.display

/-- Embeds impl From of fmt::Error for Error (src/error/mod.rs lines
855-859). -/
def Error.from_fmt_error (display : String) : Error :=
  Error.raw ErrorKind.Format display

/-- Embeds the error::Error::source implementation (src/error/mod.rs
lines 861-866); named source_method to keep it apart from the inner
field. -/
def Error.source_method (e : Error) : Option ErrSource :=
  e.inner.source

/-- Embeds Error::display_help (src/error/mod.rs lines 243-245). -/
def Error.display_help (app : App) (colorizer : Colorizer) : Error :=
  Error.for_app ErrorKind.DisplayHelp app colorizer []

/-- Embeds Error::display_help_error (src/error/mod.rs lines 247-254). -/
def Error.display_help_error (app : App) (colorizer : Colorizer) : Error :=
  Error.for_app ErrorKind.DisplayHelpOnMissingArgumentOrSubcommand app colorizer []

/-- Embeds Error::display_version (src/error/mod.rs lines 256-258). -/
def Error.display_version (app : App) (colorizer : Colorizer) : Error :=
  Error.for_app ErrorKind.DisplayVersion app colorizer []

/-- Embeds Error::argument_conflict (src/error/mod.rs lines 260-283); the
Arg collaborator is represented by its display string. -/
def Error.argument_conflict (app : App) (arg : String) (others : List String)
    (usage : String) : Error :=
  let info := others
  let others :=
    match others.length, others with
    | 0, _ => ContextValue.None
    | 1, [v] => ContextValue.Value v
    | _, vs => ContextValue.Values vs
  ((((Error.new ErrorKind.ArgumentConflict).with_app app).set_info
        info).extend_context_unchecked
    [(ContextKind.InvalidArg, ContextValue.Value arg),
     (ContextKind.ValidArg, others),
     (ContextKind.Usage, ContextValue.Value usage)])

/-- Embeds Error::empty_value (src/error/mod.rs lines 285-304). -/
def Error.empty_value (app : App) (good_vals : List String) (arg : String)
    (usage : String) : Error :=
  let info := [arg]
  let err :=
    (((Error.new ErrorKind.EmptyValue).with_app app).set_info
        info).extend_context_unchecked
      [(ContextKind.InvalidArg, ContextValue.Value arg),
       (ContextKind.Usage, ContextValue.Value usage)]
  if !good_vals.isEmpty then
    err.insert_context_unchecked ContextKind.ValidValue (ContextValue.Values good_vals)
  else err

/-- Embeds Error::no_equals (src/error/mod.rs lines 306-318). -/
def Error.no_equals (app : App) (arg : String) (usage : String) : Error :=
  let info := [arg]
  (((Error.new ErrorKind.NoEquals).with_app app).set_info info).extend_context_unchecked
    [(ContextKind.InvalidArg, ContextValue.Value arg),
     (ContextKind.Usage, ContextValue.Value usage)]

/-- Embeds Error::invalid_value (src/error/mod.rs lines 320-373).  The
external edit-distance ranking suggestions::did_you_mean is a collaborator
consumed as a pure function and is passed in as the parameter dym; the
source pops the last element of the vector it returns. -/
def Error.invalid_value (dym : String → List String → List String) (app : App)
    (bad_val : String) (good_vals : List String) (arg : String)
    (usage : String) : Error :=
  let c := Colorizer.new true app.get_color
  let suffix := (dym bad_val good_vals).getLast?
  let good_vals := good_vals.map (fun v => if containsWhitespace v then rustDebug v else v)
  let c := start_error c
  let c := c.none ""
  let c := c.warning (rustDebug bad_val)
  let c := c.none " isn't a valid value for '"
  let c := c.warning arg
  let c := c.none "'\n\t[possible values: "
  let c := append_good_vals c good_vals
  let c := c.none "]"
  let c :=
    match suffix with
    | some val => ((c.none "\n\n\tDid you mean ").good (rustDebug val)).none "?"
    | Option.none => c
  let c := put_usage c usage
  let c := try_help c (get_help_flag app)
  let info := [arg, bad_val] ++ good_vals
  Error.for_app ErrorKind.InvalidValue app c info

/-- Embeds Error::invalid_subcommand (src/error/mod.rs lines 375-400);
the caller supplies the already-computed suggestion. -/
def Error.invalid_subcommand (app : App) (subcmd : String) (did_you_mean : String)
    (name : String) (usage : String) : Error :=
  let c := Colorizer.new true app.get_color
  let c := start_error c
  let c := c.none "The subcommand '"
  let c := c.warning subcmd
  let c := c.none "' wasn't recognized\n\n\tDid you mean "
  let c := c.good did_you_mean
  let c := c.none ""
  let c := c.none
    ("?\n\nIf you believe you received this message in error, try re-running with '"
      ++ name ++ " ")
  let c := c.good "--"
  let c := c.none (" " ++ subcmd ++ "'")
  let c := put_usage c usage
  let c := try_help c (get_help_flag app)
  Error.for_app ErrorKind.InvalidSubcommand app c [subcmd]

/-- Embeds Error::unrecognized_subcommand (src/error/mod.rs lines
402-414). -/
def Error.unrecognized_subcommand (app : App) (subcmd : String) (name : String) :
    Error :=
  let c := Colorizer.new true app.get_color
  let c := start_error c
  let c := c.none " The subcommand '"
  let c := c.warning subcmd
  let c := c.none "' wasn't recognized\n\n"
  let c := c.warning "USAGE:"
  let c := c.none ("\n    " ++ name ++ " <subcommands>")
  let c := try_help c (get_help_flag app)
  Error.for_app ErrorKind.UnrecognizedSubcommand app c [subcmd]

/-- Embeds Error::missing_required_argument (src/error/mod.rs lines
416-435). -/
def Error.missing_required_argument (app : App) (required : List String)
    (usage : String) : Error :=
  let c := Colorizer.new true app.get_color
  let c := start_error c
  let c := c.none "The following required arguments were not provided:"
  let c := required.foldl (fun (c : Colorizer) v => (c.none "\n    ").good v) c
  let c := put_usage c usage
  let c := try_help c (get_help_flag app)
  Error.for_app ErrorKind.MissingRequiredArgument app c required

/-- Embeds Error::missing_subcommand (src/error/mod.rs lines 437-448). -/
def Error.missing_subcommand (app : App) (name : String) (usage : String) : Error :=
  let c := Colorizer.new true app.get_color
  let c := start_error c
  let c := c.none "'"
  let c := c.warning name
  let c := c.none "' requires a subcommand, but one was not provided"
  let c := put_usage c usage
  let c := try_help c (get_help_flag app)
  Error.for_app ErrorKind.MissingSubcommand app c []

/-- Embeds Error::invalid_utf8 (src/error/mod.rs lines 450-459). -/
def Error.invalid_utf8 (app : App) (usage : String) : Error :=
  let c := Colorizer.new true app.get_color
  let c := start_error c
  let c := c.none "Invalid UTF-8 was detected in one or more arguments"
  let c := put_usage c usage
  let c := try_help c (get_help_flag app)
  Error.for_app ErrorKind.InvalidUtf8 app c []

/-- Embeds Error::singular_or_plural (src/error/mod.rs lines 840-846). -/
def Error.singular_or_plural (n : Nat) : String :=
  if n > 1 then " were provided" else " was provided"

/-- Embeds Error::too_many_occurrences (src/error/mod.rs lines 461-491). -/
def Error.too_many_occurrences (app : App) (arg : String) (max_occurs : Nat)
    (curr_occurs : Nat) (usage : String) : Error :=
  let c := Colorizer.new true app.get_color
  let were_provided := Error.singular_or_plural curr_occurs
  let max_occurs := toString max_occurs
  let curr_occurs := toString curr_occurs
  let c := start_error c
  let c := c.none "The argument '"
  let c := c.warning arg
  let c := c.none "' allows at most "
  let c := c.warning max_occurs
  let c := c.none " occurrences, but "
  let c := c.warning curr_occurs
  let c := c.none were_provided
  let c := put_usage c usage
  let c := try_help c (get_help_flag app)
  Error.for_app ErrorKind.TooManyOccurrences app c [arg, curr_occurs, max_occurs]

/-- Embeds Error::too_many_values (src/error/mod.rs lines 493-506). -/
def Error.too_many_values (app : App) (val : String) (arg : String)
    (usage : String) : Error :=
  let c := Colorizer.new true app.get_color
  let c := start_error c
  let c := c.none "The value '"
  let c := c.warning val
  let c := c.none "' was provided to '"
  let c := c.warning arg
  let c := c.none "' but it wasn't expecting any more values"
  let c := put_usage c usage
  let c := try_help c (get_help_flag app)
  Error.for_app ErrorKind.TooManyValues app c [arg, val]

/-- Embeds Error::too_few_values (src/error/mod.rs lines 508-538). -/
def Error.too_few_values (app : App) (arg : String) (min_vals : Nat)
    (curr_vals : Nat) (usage : String) : Error :=
  let c := Colorizer.new true app.get_color
  let were_provided := Error.singular_or_plural curr_vals
  let min_vals := toString min_vals
  let curr_vals := toString curr_vals
  let c := start_error c
  let c := c.none "The argument '"
  let c := c.warning arg
  let c := c.none "' requires at least "
  let c := c.warning min_vals
  let c := c.none " values, but only "
  let c := c.warning curr_vals
  let c := c.none were_provided
  let c := put_usage c usage
  let c := try_help c (get_help_flag app)
  Error.for_app ErrorKind.TooFewValues app c [arg, curr_vals, min_vals]

/-- Embeds Error::value_validation_with_color (src/error/mod.rs lines
574-595). -/
def Error.value_validation_with_color (arg : String) (val : String)
    (err : ErrSource) (color : ColorChoice) : Error :=
  let c := Colorizer.new true color
  let c := start_error c
  let c := c.none "Invalid value"
  let c := c.none " for '"
  let c := c.warning arg
  let c := c.none "'"
  let c := c.none (": " ++ err.display)
  (((Error.new ErrorKind.ValueValidation).set_message (Message.Formatted c)).set_info
      [arg, val, err.display]).set_source err

/-- Embeds Error::value_validation (src/error/mod.rs lines 540-555): the
with-color construction, then with_app, then try_help appended to the
formatted message in place. -/
def Error.value_validation (app : App) (arg : String) (val : String)
    (err : ErrSource) : Error :=
  let e := (Error.value_validation_with_color arg val err app.get_color).with_app app
  match e.inner.message with
  | some (Message.Formatted c) =>
      e.set_message (Message.Formatted (try_help c (get_help_flag app)))
  | _ => e

/-- Embeds Error::value_validation_without_app (src/error/mod.rs lines
557-572). -/
def Error.value_validation_without_app (arg : String) (val : String)
    (err : ErrSource) : Error :=
  let e := Error.value_validation_with_color arg val err ColorChoice.Never
  match e.inner.message with
  | some (Message.Formatted c) => e.set_message (Message.Formatted (c.none "\n"))
  | _ => e

/-- Embeds Error::wrong_number_of_values (src/error/mod.rs lines
597-627). -/
def Error.wrong_number_of_values (app : App) (arg : String) (num_vals : Nat)
    (curr_vals : Nat) (usage : String) : Error :=
  let c := Colorizer.new true app.get_color
  let were_provided := Error.singular_or_plural curr_vals
  let num_vals := toString num_vals
  let curr_vals := toString curr_vals
  let c := start_error c
  let c := c.none "The argument '"
  let c := c.warning arg
  let c := c.none "' requires "
  let c := c.warning num_vals
  let c := c.none " values, but "
  let c := c.warning curr_vals
  let c := c.none were_provided
  let c := put_usage c usage
  let c := try_help c (get_help_flag app)
  Error.for_app ErrorKind.WrongNumberOfValues app c [arg, curr_vals, num_vals]

/-- Embeds Error::unexpected_multiple_usage (src/error/mod.rs lines
629-641). -/
def Error.unexpected_multiple_usage (app : App) (arg : String) (usage : String) :
    Error :=
  let c := Colorizer.new true app.get_color
  let c := start_error c
  let c := c.none "The argument '"
  let c := c.warning arg
  let c := c.none "' was provided more than once, but cannot be used multiple times"
  let c := put_usage c usage
  let c := try_help c (get_help_flag app)
  Error.for_app ErrorKind.UnexpectedMultipleUsage app c [arg]

/-- Embeds Error::unknown_argument (src/error/mod.rs lines 643-686). -/
def Error.unknown_argument (app : App) (arg : String)
    (did_you_mean : Option (String × Option String)) (usage : String) : Error :=
  let c := Colorizer.new true app.get_color
  let c := start_error c
  let c := c.none "Found argument '"
  let c := c.warning arg
  let c := c.none "' which wasn't expected, or isn't valid in this context"
  let c :=
    match did_you_mean with
    | some (flag, subcmd) =>
        let flag := "--" ++ flag
        let c := c.none "\n\n\tDid you mean "
        match subcmd with
        | some subcmd =>
            ((((c.none "to put '").good flag).none "' after the subcommand '").good
                subcmd).none "'?"
        | Option.none => ((c.none "'").good flag).none "'?"
    | Option.none => c
  let c :=
    if arg.startsWith "-" then
      c.none ("\n\n\tIf you tried to supply `" ++ arg
        ++ "` as a value rather than a flag, use `-- " ++ arg ++ "`")
    else c
  let c := put_usage c usage
  let c := try_help c (get_help_flag app)
  Error.for_app ErrorKind.UnknownArgument app c [arg]

/-- Embeds Error::unnecessary_double_dash (src/error/mod.rs lines
688-704). -/
def Error.unnecessary_double_dash (app : App) (arg : String) (usage : String) :
    Error :=
  let c := Colorizer.new true app.get_color
  let c := start_error c
  let c := c.none "Found argument '"
  let c := c.warning arg
  let c := c.none "' which wasn't expected, or isn't valid in this context"
  let c := c.none ("\n\n\tIf you tried to supply `" ++ arg
    ++ "` as a subcommand, remove the '--' before it.")
  let c := put_usage c usage
  let c := try_help c (get_help_flag app)
  Error.for_app ErrorKind.UnknownArgument app c [arg]

/-- Embeds Error::argument_not_found_auto (src/error/mod.rs lines
706-717). -/
def Error.argument_not_found_auto (arg : String) : Error :=
  let c := Colorizer.new true ColorChoice.Never
  let c := start_error c
  let c := c.none "The argument '"
  let c := c.warning arg
  let c := c.none "' wasn't found\n"
  (((Error.new ErrorKind.ArgumentNotFound).set_message (Message.Formatted c)).set_info
    [arg])

/-- Embeds the final usage step of Error::formatted (src/error/mod.rs
lines 828-831): append the Usage context entry when one holds a single
value. -/
def append_usage_ctx (e : Error) (c : Colorizer) : Colorizer :=
  match e.get_context ContextKind.Usage with
  | some (ContextValue.Value usage) => put_usage c usage
  | _ => c

/-- Embeds Error::formatted (src/error/mod.rs lines 719-837): return the
attached message's rendering when one is present, otherwise synthesize a
kind-driven rendering from the context entries. -/
def Error.formatted (e : Error) : Colorizer :=
  match e.inner.message with
  | some message => message.formatted
  | Option.none =>
      let c := Colorizer.new e.use_stderr e.inner.color_when
      let c := start_error c
      let c :=
        match e.kind_method with
        | ErrorKind.ArgumentConflict =>
            (match e.get_context ContextKind.InvalidArg,
                e.get_context ContextKind.ValidArg with
             | some (ContextValue.Value invalid), some valid =>
                 let c := c.none "The argument '"
                 let c := c.warning invalid
                 let c := c.none "' cannot be used with"
                 (match valid with
                  | ContextValue.Values values =>
                      values.foldl (fun (c : Colorizer) v => (c.none "\n    ").warning v) (c.none ":")
                  | ContextValue.Value value => ((c.none " '").warning value).none "'"
                  | _ => c.none " one or more of the other specified arguments")
             | _, _ => c.none ((ErrorKind.as_str ErrorKind.ArgumentConflict).getD ""))
        | ErrorKind.EmptyValue =>
            let c :=
              match e.get_context ContextKind.InvalidArg with
              | some (ContextValue.Value invalid) =>
                  ((c.none "The argument '").warning invalid).none
                    "' requires a value but none was supplied"
              | _ => c.none ((ErrorKind.as_str ErrorKind.EmptyValue).getD "")
            (match e.get_context ContextKind.ValidValue with
             | some (ContextValue.Values possible_values) =>
                 let c := c.none "\n\t[possible values: "
                 let c :=
                   match possible_values.getLast? with
                   | some last =>
                       let c := possible_values.dropLast.foldl
                         (fun (c : Colorizer) v => (c.good (escape v)).none ", ") c
                       c.good (escape last)
                   | Option.none => c
                 c.none "]"
             | _ => c)
        | ErrorKind.NoEquals =>
            (match e.get_context ContextKind.InvalidArg with
             | some (ContextValue.Value invalid) =>
                 ((c.none "Equal sign is needed when assigning values to '").warning
                     invalid).none "'."
             | _ => c.none ((ErrorKind.as_str ErrorKind.NoEquals).getD ""))
        | k =>
            (match k.as_str with
             | some msg => c.none msg
             | Option.none =>
                 match e.inner.source with
                 | some source => c.none source.display
                 | Option.none => c.none "Unknown cause")
      let c := append_usage_ctx e c
      try_help c e.inner.help_flag

/-- Modelled from the spec: the process exit codes live in src/util, not
in the excerpt; the doc comment on Error::exit fixes the usage-error
status at 2, and the spec requires the usage-error code to be non-zero. -/
def USAGE_CODE : Nat := 2

/-- Modelled from the spec: the success status code, fixed at 0 by the
doc comment on Error::exit and by the spec. -/
def SUCCESS_CODE : Nat := 0

/-- Which standard stream a print is routed to. -/
inductive OutStream where
  | stdout
  | stderr
deriving DecidableEq

/-- The observable effect of Error::exit: which stream the rendered
message is printed to, the status code handed to the process-exit seam,
whether a stdin line is awaited first, and what is printed.  safe_exit
never returns, so the whole effect of the call is this record. -/
structure ExitAction where
  stream : OutStream
  code : Nat
  waits_for_stdin : Bool
  printed : Colorizer
deriving DecidableEq

/-- Embeds Error::exit (src/error/mod.rs lines 108-126) as the exit
action it requests: the stderr branch prints, optionally blocks on a
stdin line when wait_on_exit is set, and exits with USAGE_CODE; the other
branch prints to stdout and exits with SUCCESS_CODE. -/
def Error.exit (e : Error) : ExitAction :=
  if e.use_stderr then
    { stream := OutStream.stderr
      code := USAGE_CODE
      waits_for_stdin := e.inner.wait_on_exit
      printed := e.formatted }
  else
    { stream := OutStream.stdout
      code := SUCCESS_CODE
      waits_for_stdin := false
      printed := e.formatted }

/-- One builder-style mutation step on an Error, covering every mutator
the source exposes after construction. -/
inductive Mutation where
  | set_message (m : Message)
  | set_info (info : List String)
  | set_source (src : ErrSource)
  | set_color (c : ColorChoice)
  | set_help_flag (h : Option String)
  | set_wait_on_exit (b : Bool)
  | with_app (app : App)
  | format (app : App) (usage : String)
  | insert_context_unchecked (k : ContextKind) (v : ContextValue)
  | extend_context_unchecked (ps : List (ContextKind × ContextValue))

/-- Apply one mutation step. -/
def Mutation.apply (m : Mutation) (e : Error) : Error :=
  match m with
  | Mutation.set_message msg => e.set_message msg
  | Mutation.set_info info => e.set_info info
  | Mutation.set_source src => e.set_source src
  | Mutation.set_color c => e.set_color c
  | Mutation.set_help_flag h => e.set_help_flag h
  | Mutation.set_wait_on_exit b => e.set_wait_on_exit b
  | Mutation.with_app app => e.with_app app
  | Mutation.format app usage => e.format app usage
  | Mutation.insert_context_unchecked k v => e.insert_context_unchecked k v
  | Mutation.extend_context_unchecked ps => e.extend_context_unchecked ps

/-- Apply a sequence of mutation steps left to right. -/
def applyAll (e : Error) (ms : List Mutation) : Error :=
  ms.foldl (fun e m => m.apply e) e

/-- A concrete App used by witnesses and counterexamples: no color, no
wait-on-error, help flag enabled, no subcommands. -/
def app0 : App :=
  ⟨ColorChoice.Never, false, false, false, false⟩

/-- The summary text the spec expects as the body of a fallback
rendering: the kind's static default summary, else the underlying cause's
display text, else the fixed unknown-cause text.  Stated from the spec's
words for comparison with Error.formatted. -/
def fallbackBody (e : Error) (k : ErrorKind) : String :=
  match k.as_str with
  | some msg => msg
  | Option.none =>
      match e.inner.source with
      | some source => source.display
      | Option.none => "Unknown cause"

/-- The usage suffix the spec expects after the kind-specific body: the
Usage context entry preceded by a blank line when one is present, else
nothing.  Stated from the spec's words. -/
def usagePart (e : Error) : String :=
  match e.get_context ContextKind.Usage with
  | some (ContextValue.Value usage) => "\n\n" ++ usage
  | _ => ""

/-- The help-hint suffix the spec expects at the end of a rendering.
Stated from the spec's words. -/
def helpPart (e : Error) : String :=
  match e.inner.help_flag with
  | some h => "\n\nFor more information try " ++ h ++ "\n"
  | Option.none => "\n"

theorem join_foldl_shift (l : List String) :
    ∀ a : String, l.foldl (fun r s => r ++ s) a = a ++ l.foldl (fun r s => r ++ s) "" := by
  induction l with
  | nil => intro a; simp
  | cons x xs ih =>
      intro a
      simp only [List.foldl_cons]
      rw [ih (a ++ x), ih ("" ++ x)]
      simp [String.append_assoc]

theorem join_cons (s : String) (l : List String) :
    String.join (s :: l) = s ++ String.join l := by
  simp only [String.join, List.foldl_cons]
  rw [join_foldl_shift l ("" ++ s)]
  simp

theorem join_append (l₁ l₂ : List String) :
    String.join (l₁ ++ l₂) = String.join l₁ ++ String.join l₂ := by
  induction l₁ with
  | nil => simp [String.join]
  | cons x xs ih => simp [join_cons, ih, String.append_assoc]

@[simp]
theorem Colorizer.chunks_new (b : Bool) (w : ColorChoice) :
    (Colorizer.new b w).chunks = [] := rfl

@[simp]
theorem Colorizer.chunks_append (c : Colorizer) (st : Style) (s : String) :
    (c.append st s).chunks = c.chunks ++ [(st, s)] := rfl

@[simp]
theorem Colorizer.chunks_none (c : Colorizer) (s : String) :
    (c.none s).chunks = c.chunks ++ [(Style.None, s)] := rfl

@[simp]
theorem Colorizer.chunks_good (c : Colorizer) (s : String) :
    (c.good s).chunks = c.chunks ++ [(Style.Good, s)] := rfl

@[simp]
theorem Colorizer.chunks_warning (c : Colorizer) (s : String) :
    (c.warning s).chunks = c.chunks ++ [(Style.Warning, s)] := rfl

@[simp]
theorem Colorizer.chunks_error (c : Colorizer) (s : String) :
    (c.error s).chunks = c.chunks ++ [(Style.Error, s)] := rfl

@[simp]
theorem Colorizer.to_string_new (b : Bool) (w : ColorChoice) :
    (Colorizer.new b w).to_string = "" := rfl

theorem Colorizer.to_string_chunks (c : Colorizer) :
    c.to_string = String.join (c.chunks.map Prod.snd) := rfl

@[simp]
theorem Colorizer.to_string_append (c : Colorizer) (st : Style) (s : String) :
    (c.append st s).to_string = c.to_string ++ s := by
  simp [Colorizer.to_string, Colorizer.append, join_append, join_cons, String.join]

@[simp]
theorem Colorizer.to_string_none (c : Colorizer) (s : String) :
    (c.none s).to_string = c.to_string ++ s := by
  simp [Colorizer.none]

@[simp]
theorem Colorizer.to_string_good (c : Colorizer) (s : String) :
    (c.good s).to_string = c.to_string ++ s := by
  simp [Colorizer.good]

@[simp]
theorem Colorizer.to_string_warning (c : Colorizer) (s : String) :
    (c.warning s).to_string = c.to_string ++ s := by
  simp [Colorizer.warning]

@[simp]
theorem Colorizer.to_string_error (c : Colorizer) (s : String) :
    (c.error s).to_string = c.to_string ++ s := by
  simp [Colorizer.error]

theorem to_string_decomp_of_mem (c : Colorizer) (p : Style × String)
    (h : p ∈ c.chunks) : ∃ s t, c.to_string = s ++ p.2 ++ t := by
  obtain ⟨l₁, l₂, hc⟩ := List.append_of_mem h
  refine ⟨String.join (l₁.map Prod.snd), String.join (l₂.map Prod.snd), ?_⟩
  rw [Colorizer.to_string_chunks, hc]
  simp [join_append, join_cons, String.append_assoc]

theorem good_sep_fold_chunks (l : List String) (c : Colorizer) :
    (l.foldl (fun (c : Colorizer) v => (c.good v).none ", ") c).chunks
      = c.chunks ++ (l.map (fun v => [(Style.Good, v), (Style.None, ", ")])).flatten := by
  induction l generalizing c with
  | nil => simp
  | cons x xs ih => simp [List.foldl_cons, ih, List.append_assoc]

theorem render_tail (e : Error) (c : Colorizer) :
    (try_help (append_usage_ctx e c) e.inner.help_flag).to_string
      = c.to_string ++ usagePart e ++ helpPart e := by
  have htry : ∀ c' : Colorizer,
      (try_help c' e.inner.help_flag).to_string = c'.to_string ++ helpPart e := by
    intro c'
    rcases hh : e.inner.help_flag with _ | h <;>
      simp [try_help, helpPart, hh, String.append_assoc]
  rw [htry]
  rcases hu : e.get_context ContextKind.Usage with _ | v
  · simp [append_usage_ctx, usagePart, hu, String.append_assoc]
  · cases v <;> simp [append_usage_ctx, usagePart, put_usage, hu, String.append_assoc]

theorem use_stderr_eq_false_iff (e : Error) :
    e.use_stderr = false ↔
      e.kind_method = ErrorKind.DisplayHelp ∨ e.kind_method = ErrorKind.DisplayVersion := by
  cases h : e.kind_method <;> simp [Error.use_stderr, h]

/-- C1: for every constructed Error, use_stderr() returns false exactly
when its kind is DisplayHelp or DisplayVersion, and returns true for
every other ErrorKind, DisplayHelpOnMissingArgumentOrSubcommand
included. -/
theorem use_stderr_iff (e : Error) :
    (e.use_stderr = false ↔
      e.kind_method = ErrorKind.DisplayHelp ∨ e.kind_method = ErrorKind.DisplayVersion) ∧
    (e.kind_method = ErrorKind.DisplayHelpOnMissingArgumentOrSubcommand →
      e.use_stderr = true) := by
  constructor
  · exact use_stderr_eq_false_iff e
  · intro h; simp [Error.use_stderr, h]

/-- C1 witness: the DisplayHelpOnMissingArgumentOrSubcommand kind goes to
stderr. -/
theorem use_stderr_iff_witness :
    (Error.new ErrorKind.DisplayHelpOnMissingArgumentOrSubcommand).use_stderr = true :=
  (use_stderr_iff (Error.new ErrorKind.DisplayHelpOnMissingArgumentOrSubcommand)).2 rfl

/-- C2 counterexample: a DisplayVersion error is not of kind DisplayHelp,
yet exit() prints it to standard output and requests status code 0,
refuting the claim that every kind other than DisplayHelp goes to
standard error with the non-zero usage-error code. -/
theorem exit_claim_counterexample :
    (Error.display_version app0 (Colorizer.new true ColorChoice.Never)).kind_method ≠
        ErrorKind.DisplayHelp ∧
    (Error.display_version app0 (Colorizer.new true ColorChoice.Never)).exit.stream =
        OutStream.stdout ∧
    (Error.display_version app0 (Colorizer.new true ColorChoice.Never)).exit.code = 0 := by
  refine ⟨by decide, rfl, rfl⟩

/-- C2 amended: exit() never returns (its whole effect is the requested
exit action); on a DisplayHelp- or DisplayVersion-kind error it prints to
standard output and requests the success status code 0, while every
remaining kind prints to standard error, blocks on a stdin line exactly
when the wait-on-exit flag is set, and requests the non-zero usage-error
status code 2. -/
theorem exit_spec (e : Error) :
    ((e.kind_method = ErrorKind.DisplayHelp ∨ e.kind_method = ErrorKind.DisplayVersion) →
      e.exit.stream = OutStream.stdout ∧ e.exit.code = SUCCESS_CODE ∧
      e.exit.waits_for_stdin = false ∧ e.exit.printed = e.formatted) ∧
    (e.kind_method ≠ ErrorKind.DisplayHelp → e.kind_method ≠ ErrorKind.DisplayVersion →
      e.exit.stream = OutStream.stderr ∧ e.exit.code = USAGE_CODE ∧
      e.exit.waits_for_stdin = e.inner.wait_on_exit ∧ e.exit.printed = e.formatted) ∧
    SUCCESS_CODE = 0 ∧ USAGE_CODE ≠ 0 := by
  have hs := use_stderr_eq_false_iff e
  refine ⟨?_, ?_, rfl, by decide⟩
  · intro h
    have hf : e.use_stderr = false := hs.mpr h
    simp [Error.exit, hf]
  · intro h1 h2
    have ht : e.use_stderr = true := by
      cases hu : e.use_stderr
      · rcases hs.mp hu with h | h
        · exact absurd h h1
        · exact absurd h h2
      · rfl
    simp [Error.exit, ht]

/-- C2 witness: at a concrete DisplayHelp error the requested status code
is 0, and at a concrete UnknownArgument error the stream is stderr. -/
theorem exit_spec_witness :
    (Error.new ErrorKind.DisplayHelp).exit.code = 0 ∧
    (Error.new ErrorKind.UnknownArgument).exit.stream = OutStream.stderr := by
  constructor
  · have h := ((exit_spec (Error.new ErrorKind.DisplayHelp)).1 (Or.inl rfl)).2.1
    simpa [SUCCESS_CODE] using h
  · exact ((exit_spec (Error.new ErrorKind.UnknownArgument)).2.1 (by decide) (by decide)).1

/-- C3 counterexample: converting the concrete I/O failure displaying as
oops yields kind Io, but the standard source() accessor returns None, so
the original failure is not retrievable as the underlying cause. -/
theorem from_io_error_counterexample :
    (Error.from_io_error ⟨"oops"⟩).kind_method = ErrorKind.Io ∧
    (Error.from_io_error ⟨"oops"⟩).source_method = Option.none :=
  ⟨rfl, rfl⟩

/-- C3 amended: the From io::Error conversion yields an Error with kind
Io (both the public field and the accessor) whose message is the
failure's display text stored as a Raw message; the failure itself is not
retained as the underlying cause, so source() returns None. -/
theorem from_io_error_spec (e : IoError) :
    (Error.from_io_error e).kind = ErrorKind.Io ∧
    (Error.from_io_error e).kind_method = ErrorKind.Io ∧
    (Error.from_io_error e).inner.message = some (Message.Raw e.display) ∧
    (Error.from_io_error e).source_method = Option.none :=
  ⟨rfl, rfl, rfl, rfl⟩

@[simp]
theorem error_space : ("error:" : String) ++ " " = "error: " := rfl

@[simp]
theorem error_space_assoc (s : String) :
    ("error:" : String) ++ (" " ++ s) = "error: " ++ s := by
  rw [← String.append_assoc]; rfl

/-- A Raw-message error of kind ArgumentConflict carrying a Usage context
entry, exercising the rendering path for an unformatted message. -/
def rawConflict : Error :=
  ((Error.new ErrorKind.ArgumentConflict).set_message
      (Message.Raw "boom")).insert_context_unchecked
    ContextKind.Usage (ContextValue.Value "USAGE: prog")

/-- C4 counterexample: with a Raw message attached, formatted() does not
synthesize a kind-dispatched rendering: the output is exactly the error
prefix plus the raw text, and the present Usage context entry is not
appended, nor is any help-hint suffix. -/
theorem formatted_claim_counterexample :
    rawConflict.inner.message = some (Message.Raw "boom") ∧
    rawConflict.get_context ContextKind.Usage = some (ContextValue.Value "USAGE: prog") ∧
    rawConflict.formatted.chunks =
      [(Style.Error, "error:"), (Style.None, " "), (Style.None, "boom")] ∧
    rawConflict.formatted.to_string = "error: boom" ∧
    (Style.None, "USAGE: prog") ∉ rawConflict.formatted.chunks := by
  refine ⟨rfl, rfl, rfl, by decide, by decide⟩

/-- C4 amended: formatted() returns the stored message verbatim when it is
Formatted; a stored Raw message is rendered as just the error prefix plus
the raw text, with no kind dispatch, no usage and no help hint; only when
no message is attached at all does it synthesize a rendering dispatched on
kind() — bespoke branches for ArgumentConflict, EmptyValue and NoEquals,
every remaining kind falling back to the kind's static default summary,
else the underlying cause's display text, else the unknown-cause text —
after which a Usage context entry, if present, is appended, followed by
the help-hint suffix. -/
theorem formatted_spec (e : Error) :
    (∀ c, e.inner.message = some (Message.Formatted c) → e.formatted = c) ∧
    (∀ s, e.inner.message = some (Message.Raw s) →
      e.formatted.chunks = [(Style.Error, "error:"), (Style.None, " "), (Style.None, s)] ∧
      e.formatted.to_string = "error: " ++ s) ∧
    (∀ k, e.inner.message = Option.none → e.kind_method = k →
      k ≠ ErrorKind.ArgumentConflict → k ≠ ErrorKind.EmptyValue → k ≠ ErrorKind.NoEquals →
      e.formatted.to_string = "error: " ++ fallbackBody e k ++ usagePart e ++ helpPart e) ∧
    (∀ invalid, e.inner.message = Option.none →
      e.kind_method = ErrorKind.NoEquals →
      e.get_context ContextKind.InvalidArg = some (ContextValue.Value invalid) →
      e.formatted.to_string =
        "error: " ++ ("Equal sign is needed when assigning values to '" ++ invalid ++ "'.")
          ++ usagePart e ++ helpPart e) := by
  refine ⟨?_, ?_, ?_, ?_⟩
  · intro c h
    simp [Error.formatted, h, Message.formatted]
  · intro s h
    have hch : e.formatted.chunks
        = [(Style.Error, "error:"), (Style.None, " "), (Style.None, s)] := by
      simp [Error.formatted, h, Message.formatted, start_error]
    refine ⟨hch, ?_⟩
    rw [Colorizer.to_string_chunks, hch]
    simp [join_cons, String.join]
  · intro k hmsg hk h1 h2 h3
    cases k
    case ArgumentConflict => exact absurd rfl h1
    case EmptyValue => exact absurd rfl h2
    case NoEquals => exact absurd rfl h3
    all_goals
      rcases hsrc : e.inner.source with _ | src <;>
        · simp only [Error.formatted, hmsg, hk, ErrorKind.as_str, hsrc]
          rw [render_tail]
          simp [start_error, fallbackBody, ErrorKind.as_str, hsrc, String.append_assoc]
  · intro invalid hmsg hk hctx
    simp only [Error.formatted, hmsg, hk, hctx]
    rw [render_tail]
    simp [start_error, String.append_assoc]
    have hmerge : ("error: " : String) ++ "Equal sign is needed when assigning values to '"
        = "error: Equal sign is needed when assigning values to '" := rfl
    rw [← hmerge, String.append_assoc]

/-- C4 witness: the fallback rendering at a bare InvalidUtf8 error. -/
theorem formatted_spec_witness :
    (Error.new ErrorKind.InvalidUtf8).formatted.to_string =
      "error: Invalid UTF-8 was detected in one or more arguments\n" := by
  have h := (formatted_spec (Error.new ErrorKind.InvalidUtf8)).2.2.1 ErrorKind.InvalidUtf8
    rfl rfl (by decide) (by decide) (by decide)
  rw [h]; decide

/-- C5: the unchecked insert and extend operations append context entries
at the end in insertion order without replacing earlier ones, the
context() iterator yields the same order, and get_context returns the
first entry whose kind matches — so an entry inserted later under an
already-present kind never changes the lookup result. -/
theorem context_ops (e : Error) (k : ContextKind) (v : ContextValue) :
    ((e.insert_context_unchecked k v).inner.context = e.inner.context ++ [(k, v)]) ∧
    (∀ ps, (e.extend_context_unchecked ps).inner.context = e.inner.context ++ ps) ∧
    ((e.insert_context_unchecked k v).context = e.context ++ [(k, v)]) ∧
    (∀ l₁ v₁ l₂, e.inner.context = l₁ ++ (k, v₁) :: l₂ → (∀ p ∈ l₁, p.1 ≠ k) →
      e.get_context k = some v₁) ∧
    (e.get_context k = Option.none →
      (e.insert_context_unchecked k v).get_context k = some v) ∧
    (∀ u, e.get_context k = some u →
      (e.insert_context_unchecked k v).get_context k = some u) := by
  refine ⟨rfl, fun ps => rfl, rfl, ?_, ?_, ?_⟩
  · intro l₁ v₁ l₂ hc hnone
    have h₁ : l₁.findSome?
        (fun p => if p.1 = k then some p.2 else Option.none) = Option.none := by
      rw [List.findSome?_eq_none_iff]
      intro p hp
      simp [hnone p hp]
    simp [Error.get_context, hc, List.findSome?_append, h₁, List.findSome?_cons]
  · intro h
    simp only [Error.get_context] at h
    simp [Error.get_context, Error.insert_context_unchecked, List.findSome?_append, h]
  · intro u h
    simp only [Error.get_context] at h
    simp [Error.get_context, Error.insert_context_unchecked, List.findSome?_append, h]

/-- C5 witness: with InvalidArg inserted twice, lookup returns the first
entry, and inserting another InvalidArg entry afterwards still does. -/
theorem context_ops_witness :
    ((Error.new ErrorKind.InvalidValue).extend_context_unchecked
        [(ContextKind.InvalidArg, ContextValue.Value "first"),
         (ContextKind.InvalidArg, ContextValue.Value "second")]).get_context
      ContextKind.InvalidArg = some (ContextValue.Value "first") ∧
    (((Error.new ErrorKind.InvalidValue).extend_context_unchecked
        [(ContextKind.InvalidArg, ContextValue.Value "first"),
         (ContextKind.InvalidArg, ContextValue.Value "second")]).insert_context_unchecked
        ContextKind.InvalidArg (ContextValue.Value "third")).get_context
      ContextKind.InvalidArg = some (ContextValue.Value "first") := by
  constructor
  · exact (context_ops ((Error.new ErrorKind.InvalidValue).extend_context_unchecked
      [(ContextKind.InvalidArg, ContextValue.Value "first"),
       (ContextKind.InvalidArg, ContextValue.Value "second")]) ContextKind.InvalidArg
      ContextValue.None).2.2.2.1 [] (ContextValue.Value "first")
      [(ContextKind.InvalidArg, ContextValue.Value "second")] rfl (by decide)
  · exact (context_ops ((Error.new ErrorKind.InvalidValue).extend_context_unchecked
      [(ContextKind.InvalidArg, ContextValue.Value "first"),
       (ContextKind.InvalidArg, ContextValue.Value "second")]) ContextKind.InvalidArg
      (ContextValue.Value "third")).2.2.2.2.2 (ContextValue.Value "first") (by decide)

/-- C6: Message.format is idempotent — reformatting an already formatted
message (with any app context and usage string) is a no-op, and in
particular the rendered output of formatting twice is byte-identical to
formatting once. -/
theorem message_format_idempotent (m : Message) (app app2 : App) (usage usage2 : String) :
    ((m.format app usage).format app2 usage2 = m.format app usage) ∧
    (∀ c, (Message.Formatted c).format app usage = Message.Formatted c) ∧
    (((m.format app usage).format app2 usage2).formatted.to_string
      = (m.format app usage).formatted.to_string) := by
  refine ⟨?_, fun c => rfl, ?_⟩
  · cases m <;> rfl
  · cases m <;> rfl

@[simp]
theorem formatted_for_app (k : ErrorKind) (app : App) (c : Colorizer)
    (info : List String) : (Error.for_app k app c info).formatted = c := rfl

theorem dash_hint_ne (arg : String) :
    "\n\n\tIf you tried to supply `" ++ arg
        ++ "` as a value rather than a flag, use `-- " ++ arg ++ "`"
      ≠ "\n\n\tDid you mean " := by
  intro h
  have hlen := congrArg String.length h
  simp only [String.length_append] at hlen
  have h1 : ("\n\n\tIf you tried to supply `" : String).length = 27 := by decide
  have h2 : ("` as a value rather than a flag, use `-- " : String).length = 41 := by decide
  have h3 : ("`" : String).length = 1 := by decide
  have h4 : ("\n\n\tDid you mean " : String).length = 16 := by decide
  rw [h1, h2, h3, h4] at hlen
  omega

@[simp]
theorem marker_not_in_append_good_vals (c : Colorizer) (l : List String) :
    ((Style.None, "\n\n\tDid you mean ") ∈ (append_good_vals c l).chunks)
      ↔ (Style.None, "\n\n\tDid you mean ") ∈ c.chunks := by
  rcases hl : l.getLast? with _ | last
  · simp [append_good_vals, hl]
  · simp only [append_good_vals, hl, Colorizer.chunks_good, Colorizer.chunks_none,
      good_sep_fold_chunks, List.append_assoc, List.mem_append,
      List.mem_flatten, List.mem_singleton]
    constructor
    · rintro (h | ⟨x, hx, hmx⟩ | h)
      · exact h
      · obtain ⟨v, hv, rfl⟩ := List.mem_map.mp hx
        simp at hmx
      · simp at h
    · intro h
      exact Or.inl h

/-- C7: for invalid-value and unknown-argument errors, the "Did you mean"
suggestion line appears in the rendered message exactly when the external
edit-distance ranking yields a candidate; with no candidate — in
particular for an empty candidate list — the line is silently omitted
(the hypotheses only rule out a usage string that is itself the literal
suggestion marker). -/
theorem suggestion_line (dym : String → List String → List String) (app : App)
    (bad_val : String) (good_vals : List String) (arg usage : String)
    (arg2 usage2 : String) (dym2 : Option (String × Option String))
    (husage : usage ≠ "\n\n\tDid you mean ")
    (husage2 : usage2 ≠ "\n\n\tDid you mean ") :
    ((Style.None, "\n\n\tDid you mean ")
        ∈ (Error.invalid_value dym app bad_val good_vals arg usage).formatted.chunks
      ↔ ((dym bad_val good_vals).getLast?).isSome = true) ∧
    ((Style.None, "\n\n\tDid you mean ")
        ∈ (Error.unknown_argument app arg2 dym2 usage2).formatted.chunks
      ↔ dym2.isSome = true) ∧
    (dym bad_val [] = [] →
      (Style.None, "\n\n\tDid you mean ")
        ∉ (Error.invalid_value dym app bad_val [] arg usage).formatted.chunks) := by
  have hnil : ([] : List String).getLast? = Option.none := rfl
  refine ⟨?_, ?_, ?_⟩
  · rcases hs : (dym bad_val good_vals).getLast? with _ | val <;>
      rcases hh : get_help_flag app with _ | h <;>
        simp [Error.invalid_value, hs, hh, start_error, put_usage, try_help,
          Ne.symm husage, List.mem_append]
  · rcases hd : dym2 with _ | ⟨flag, subcmd⟩
    · rcases hstart : arg2.startsWith "-" <;>
        rcases hh : get_help_flag app with _ | h <;>
          simp [Error.unknown_argument, hd, hstart, hh, start_error, put_usage, try_help,
            Ne.symm husage2, Ne.symm (dash_hint_ne arg2), List.mem_append]
    · rcases subcmd with _ | sub <;>
        rcases hstart : arg2.startsWith "-" <;>
          rcases hh : get_help_flag app with _ | h <;>
            simp [Error.unknown_argument, hd, hstart, hh, start_error, put_usage, try_help,
              Ne.symm husage2, Ne.symm (dash_hint_ne arg2), List.mem_append]
  · intro hdym
    rcases hh : get_help_flag app with _ | h <;>
      simp [Error.invalid_value, hdym, hnil, hh, start_error, put_usage, try_help,
        Ne.symm husage, List.mem_append]

/-- C7 witness: with a one-candidate list the suggestion line is present,
with an empty candidate list it is absent, and for unknown_argument a
supplied candidate makes it present. -/
theorem suggestion_line_witness :
    ((Style.None, "\n\n\tDid you mean ")
        ∈ (Error.invalid_value (fun _ l => l) app0 "xyz" ["fast"] "--arg"
            "usage1").formatted.chunks) ∧
    ((Style.None, "\n\n\tDid you mean ")
        ∉ (Error.invalid_value (fun _ l => l) app0 "xyz" [] "--arg"
            "usage1").formatted.chunks) ∧
    ((Style.None, "\n\n\tDid you mean ")
        ∈ (Error.unknown_argument app0 "--fsat" (some ("flag", Option.none))
            "usage1").formatted.chunks) := by
  have h := suggestion_line (fun _ l => l) app0 "xyz" ["fast"] "--arg" "usage1"
    "--fsat" "usage1" (some ("flag", Option.none)) (by decide) (by decide)
  have h2 := suggestion_line (fun _ l => l) app0 "xyz" [] "--arg" "usage1"
    "--fsat" "usage1" (some ("flag", Option.none)) (by decide) (by decide)
  exact ⟨h.1.mpr (by decide), h2.2.2 rfl, h.2.1.mpr (by decide)⟩

@[simp]
theorem info_for_app (k : ErrorKind) (app : App) (c : Colorizer)
    (info : List String) : (Error.for_app k app c info).info = info := rfl

theorem to_string_decomp_adjacent (c : Colorizer) (p q : Style × String)
    (l₁ l₂ : List (Style × String)) (hc : c.chunks = l₁ ++ p :: q :: l₂) :
    ∃ s t, c.to_string = s ++ (p.2 ++ q.2) ++ t := by
  refine ⟨String.join (l₁.map Prod.snd), String.join (l₂.map Prod.snd), ?_⟩
  rw [Colorizer.to_string_chunks, hc]
  simp [join_append, join_cons, String.append_assoc]

/-- C8: invalid_value applied to bad value xyz, good values a and b c, an
argument display name and a usage string records info as the argument
name, the bad value, then the good values with quoting applied only to
the copy containing whitespace, and renders a message containing the
usage string and both possible values. -/
theorem invalid_value_example (dym : String → List String → List String)
    (app : App) (arg usage : String) :
    (Error.invalid_value dym app "xyz" ["a", "b c"] arg usage).info
        = [arg, "xyz", "a", "\"b c\""] ∧
    (∃ s t, (Error.invalid_value dym app "xyz" ["a", "b c"] arg usage).formatted.to_string
        = s ++ usage ++ t) ∧
    (∃ s t, (Error.invalid_value dym app "xyz" ["a", "b c"] arg usage).formatted.to_string
        = s ++ "a" ++ t) ∧
    (∃ s t, (Error.invalid_value dym app "xyz" ["a", "b c"] arg usage).formatted.to_string
        = s ++ "\"b c\"" ++ t) := by
  have hw1 : containsWhitespace "a" = false := by decide
  have hw2 : containsWhitespace "b c" = true := by decide
  have hrd : rustDebug "b c" = "\"b c\"" := by decide
  have hg : (["a", "\"b c\""] : List String).getLast? = some "\"b c\"" := by decide
  have hd : (["a", "\"b c\""] : List String).dropLast = ["a"] := by decide
  refine ⟨?_, ?_, ?_, ?_⟩
  · simp [Error.invalid_value, hw1, hw2, hrd]
  · refine to_string_decomp_of_mem _ (Style.None, usage) ?_
    rcases hs : (dym "xyz" ["a", "b c"]).getLast? with _ | val <;>
      rcases hh : get_help_flag app with _ | h <;>
        simp [Error.invalid_value, hs, hh, hw1, hw2, hrd, start_error, put_usage,
          try_help, List.mem_append]
  · refine to_string_decomp_of_mem _ (Style.Good, "a") ?_
    rcases hs : (dym "xyz" ["a", "b c"]).getLast? with _ | val <;>
      rcases hh : get_help_flag app with _ | h <;>
        simp [Error.invalid_value, hs, hh, hw1, hw2, hrd, start_error, put_usage,
          try_help, append_good_vals, hg, hd, good_sep_fold_chunks, List.mem_append]
  · refine to_string_decomp_of_mem _ (Style.Good, "\"b c\"") ?_
    rcases hs : (dym "xyz" ["a", "b c"]).getLast? with _ | val <;>
      rcases hh : get_help_flag app with _ | h <;>
        simp [Error.invalid_value, hs, hh, hw1, hw2, hrd, start_error, put_usage,
          try_help, append_good_vals, hg, hd, good_sep_fold_chunks, List.mem_append]

/-- C9: too_many_occurrences renders the plural form exactly when the
current occurrence count exceeds one and the singular form otherwise, the
rendered message contains the count immediately followed by the selected
form, and with max 1 and current 3 it contains the text 3 were provided
(the hypotheses only rule out a usage string equal to either form). -/
theorem too_many_occurrences_plural (app : App) (arg : String)
    (max_occurs curr_occurs : Nat) (usage : String)
    (h1 : usage ≠ " were provided") (h2 : usage ≠ " was provided") :
    ((Style.None, " were provided")
        ∈ (Error.too_many_occurrences app arg max_occurs curr_occurs
            usage).formatted.chunks
      ↔ curr_occurs > 1) ∧
    ((Style.None, " was provided")
        ∈ (Error.too_many_occurrences app arg max_occurs curr_occurs
            usage).formatted.chunks
      ↔ ¬curr_occurs > 1) ∧
    (∃ s t, (Error.too_many_occurrences app arg max_occurs curr_occurs
          usage).formatted.to_string
        = s ++ (toString curr_occurs ++ Error.singular_or_plural curr_occurs) ++ t) ∧
    (∃ s t, (Error.too_many_occurrences app arg 1 3 usage).formatted.to_string
        = s ++ "3 were provided" ++ t) := by
  refine ⟨?_, ?_, ?_, ?_⟩
  · by_cases hc : curr_occurs > 1 <;>
      rcases hh : get_help_flag app with _ | h <;>
        simp [Error.too_many_occurrences, Error.singular_or_plural, hc, hh, start_error,
          put_usage, try_help, Ne.symm h1, Ne.symm h2, List.mem_append]
  · by_cases hc : curr_occurs > 1 <;>
      rcases hh : get_help_flag app with _ | h <;>
        simp [Error.too_many_occurrences, Error.singular_or_plural, hc, hh, start_error,
          put_usage, try_help, Ne.symm h1, Ne.symm h2, List.mem_append]
  · rcases hh : get_help_flag app with _ | h
    · exact to_string_decomp_adjacent _ (Style.Warning, toString curr_occurs)
        (Style.None, Error.singular_or_plural curr_occurs)
        [(Style.Error, "error:"), (Style.None, " "), (Style.None, "The argument '"),
         (Style.Warning, arg), (Style.None, "' allows at most "),
         (Style.Warning, toString max_occurs), (Style.None, " occurrences, but ")]
        [(Style.None, "\n\n"), (Style.None, usage), (Style.None, "\n")]
        (by simp [Error.too_many_occurrences, hh, start_error, put_usage, try_help])
    · exact to_string_decomp_adjacent _ (Style.Warning, toString curr_occurs)
        (Style.None, Error.singular_or_plural curr_occurs)
        [(Style.Error, "error:"), (Style.None, " "), (Style.None, "The argument '"),
         (Style.Warning, arg), (Style.None, "' allows at most "),
         (Style.Warning, toString max_occurs), (Style.None, " occurrences, but ")]
        [(Style.None, "\n\n"), (Style.None, usage),
         (Style.None, "\n\nFor more information try "), (Style.Good, h),
         (Style.None, "\n")]
        (by simp [Error.too_many_occurrences, hh, start_error, put_usage, try_help])
  · have hmerge : (toString (3 : Nat) ++ Error.singular_or_plural 3 : String)
        = "3 were provided" := by decide
    rcases hh : get_help_flag app with _ | h
    · obtain ⟨s, t, hst⟩ := to_string_decomp_adjacent
        (Error.too_many_occurrences app arg 1 3 usage).formatted
        (Style.Warning, toString (3 : Nat)) (Style.None, Error.singular_or_plural 3)
        [(Style.Error, "error:"), (Style.None, " "), (Style.None, "The argument '"),
         (Style.Warning, arg), (Style.None, "' allows at most "),
         (Style.Warning, toString (1 : Nat)), (Style.None, " occurrences, but ")]
        [(Style.None, "\n\n"), (Style.None, usage), (Style.None, "\n")]
        (by simp [Error.too_many_occurrences, hh, start_error, put_usage, try_help])
      rw [hmerge] at hst
      exact ⟨s, t, hst⟩
    · obtain ⟨s, t, hst⟩ := to_string_decomp_adjacent
        (Error.too_many_occurrences app arg 1 3 usage).formatted
        (Style.Warning, toString (3 : Nat)) (Style.None, Error.singular_or_plural 3)
        [(Style.Error, "error:"), (Style.None, " "), (Style.None, "The argument '"),
         (Style.Warning, arg), (Style.None, "' allows at most "),
         (Style.Warning, toString (1 : Nat)), (Style.None, " occurrences, but ")]
        [(Style.None, "\n\n"), (Style.None, usage),
         (Style.None, "\n\nFor more information try "), (Style.Good, h),
         (Style.None, "\n")]
        (by simp [Error.too_many_occurrences, hh, start_error, put_usage, try_help])
      rw [hmerge] at hst
      exact ⟨s, t, hst⟩

/-- C9 witness: at max 1, current 3 the plural chunk is present. -/
theorem too_many_occurrences_plural_witness :
    (Style.None, " were provided")
      ∈ (Error.too_many_occurrences app0 "--x" 1 3 "usage1").formatted.chunks :=
  (too_many_occurrences_plural app0 "--x" 1 3 "usage1" (by decide) (by decide)).1.mpr
    (by decide)

theorem mutation_apply_kind (m : Mutation) (e : Error) :
    (m.apply e).kind = e.kind ∧ (m.apply e).inner.kind = e.inner.kind := by
  cases m with
  | format app usage =>
      rcases hm : e.inner.message with _ | msg <;>
        simp [Mutation.apply, Error.format, hm, Error.with_app, Error.set_message,
          Error.set_wait_on_exit, Error.set_color, Error.set_help_flag]
  | _ =>
      constructor <;>
        simp [Mutation.apply, Error.set_message, Error.set_info, Error.set_source,
          Error.set_color, Error.set_help_flag, Error.set_wait_on_exit, Error.with_app,
          Error.insert_context_unchecked, Error.extend_context_unchecked]

theorem applyAll_kind (ms : List Mutation) :
    ∀ e : Error, (applyAll e ms).kind = e.kind ∧ (applyAll e ms).inner.kind = e.inner.kind := by
  induction ms with
  | nil => intro e; exact ⟨rfl, rfl⟩
  | cons m ms ih =>
      intro e
      have h₁ := mutation_apply_kind m e
      have h₂ := ih (m.apply e)
      simp only [applyAll, List.foldl_cons] at *
      exact ⟨h₂.1.trans h₁.1, h₂.2.trans h₁.2⟩

/-- C10: the public kind field, the kind() accessor and the inner stored
kind all equal the ErrorKind supplied at construction, and no
builder-style mutation (set_message, set_info, set_source, set_color,
set_help_flag, set_wait_on_exit, with_app, format, or the unchecked
context inserts) changes any of them; every factory tags the kind of its
situation. -/
theorem kind_immutable (k : ErrorKind) (ms : List Mutation) (e : Error) :
    ((applyAll (Error.new k) ms).kind = k ∧
     (applyAll (Error.new k) ms).kind_method = k ∧
     (applyAll (Error.new k) ms).inner.kind = k) ∧
    ((applyAll e ms).kind = e.kind ∧ (applyAll e ms).inner.kind = e.inner.kind) ∧
    (∀ message, (Error.raw k message).kind = k ∧ (Error.raw k message).kind_method = k) ∧
    (∀ app c info, (Error.for_app k app c info).kind = k ∧
      (Error.for_app k app c info).kind_method = k) ∧
    (∀ app c, (Error.display_help app c).kind_method = ErrorKind.DisplayHelp ∧
      (Error.display_help_error app c).kind_method
        = ErrorKind.DisplayHelpOnMissingArgumentOrSubcommand ∧
      (Error.display_version app c).kind_method = ErrorKind.DisplayVersion) ∧
    (∀ app arg others usage, (Error.argument_conflict app arg others usage).kind_method
        = ErrorKind.ArgumentConflict) ∧
    (∀ app gv arg usage, (Error.empty_value app gv arg usage).kind_method
        = ErrorKind.EmptyValue) ∧
    (∀ app arg usage, (Error.no_equals app arg usage).kind_method = ErrorKind.NoEquals) ∧
    (∀ dym app bv gv arg usage, (Error.invalid_value dym app bv gv arg usage).kind_method
        = ErrorKind.InvalidValue) ∧
    (∀ app sub dm name usage, (Error.invalid_subcommand app sub dm name usage).kind_method
        = ErrorKind.InvalidSubcommand) ∧
    (∀ app sub name, (Error.unrecognized_subcommand app sub name).kind_method
        = ErrorKind.UnrecognizedSubcommand) ∧
    (∀ app req usage, (Error.missing_required_argument app req usage).kind_method
        = ErrorKind.MissingRequiredArgument) ∧
    (∀ app name usage, (Error.missing_subcommand app name usage).kind_method
        = ErrorKind.MissingSubcommand) ∧
    (∀ app usage, (Error.invalid_utf8 app usage).kind_method = ErrorKind.InvalidUtf8) ∧
    (∀ app arg mx cur usage, (Error.too_many_occurrences app arg mx cur usage).kind_method
        = ErrorKind.TooManyOccurrences) ∧
    (∀ app val arg usage, (Error.too_many_values app val arg usage).kind_method
        = ErrorKind.TooManyValues) ∧
    (∀ app arg mn cur usage, (Error.too_few_values app arg mn cur usage).kind_method
        = ErrorKind.TooFewValues) ∧
    (∀ app arg val err, (Error.value_validation app arg val err).kind_method
        = ErrorKind.ValueValidation) ∧
    (∀ arg val err, (Error.value_validation_without_app arg val err).kind_method
        = ErrorKind.ValueValidation) ∧
    (∀ app arg nm cur usage, (Error.wrong_number_of_values app arg nm cur usage).kind_method
        = ErrorKind.WrongNumberOfValues) ∧
    (∀ app arg usage, (Error.unexpected_multiple_usage app arg usage).kind_method
        = ErrorKind.UnexpectedMultipleUsage) ∧
    (∀ app arg dm usage, (Error.unknown_argument app arg dm usage).kind_method
        = ErrorKind.UnknownArgument) ∧
    (∀ app arg usage, (Error.unnecessary_double_dash app arg usage).kind_method
        = ErrorKind.UnknownArgument) ∧
    (∀ arg, (Error.argument_not_found_auto arg).kind_method
        = ErrorKind.ArgumentNotFound) ∧
    (∀ io, (Error.from_io_error io).kind_method = ErrorKind.Io) ∧
    (∀ s, (Error.from_fmt_error s).kind_method = ErrorKind.Format) := by
  have hnew := applyAll_kind ms (Error.new k)
  refine ⟨⟨hnew.1, ?_, hnew.2⟩, applyAll_kind ms e, ?_⟩
  · exact hnew.2
  · refine ⟨fun message => ⟨rfl, rfl⟩, fun app c info => ⟨rfl, rfl⟩,
      fun app c => ⟨rfl, rfl, rfl⟩, fun app arg others usage => rfl,
      fun app gv arg usage => ?_, fun app arg usage => rfl,
      fun dym app bv gv arg usage => rfl, fun app sub dm name usage => rfl,
      fun app sub name => rfl, fun app req usage => rfl, fun app name usage => rfl,
      fun app usage => rfl, fun app arg mx cur usage => rfl,
      fun app val arg usage => rfl, fun app arg mn cur usage => rfl,
      fun app arg val err => rfl, fun arg val err => rfl,
      fun app arg nm cur usage => rfl, fun app arg usage => rfl,
      fun app arg dm usage => rfl, fun app arg usage => rfl, fun arg => rfl,
      fun io => rfl, fun s => rfl⟩
    by_cases hgv : gv.isEmpty <;>
      simp [Error.empty_value, Error.kind_method, hgv, Error.insert_context_unchecked,
        Error.extend_context_unchecked, Error.with_app, Error.set_info,
        Error.set_wait_on_exit, Error.set_color, Error.set_help_flag, Error.new]

end Clap
